import Mathlib

/-!
Shallow embedding of `src/Pico/main.py` (home security gateway firmware).

Conventions of the embedding:
* MicroPython's millisecond tick clock is modelled as an unbounded monotonic
  `Nat` counter.  `time.ticks_diff(a, b)` is modelled as truncated subtraction
  `a - b`; every use in the source compares the difference against a strictly
  positive constant, and for such comparisons truncated `Nat` subtraction and
  the signed modular difference agree on a monotonic clock.
* Module-level mutable globals become the record `PicoState`; each Python
  handler becomes a function `PicoState → ... → PicoState × List Effect`,
  where `Effect` records UART writes and MQTT publishes in program order.
* Python byte strings on the UART are `List Nat` (one `Nat` per byte);
  MQTT text payloads are `String`.
-/

namespace SecSys

/-- Security states (class `SecurityState`, main.py lines 67-72). -/
inductive SecState
  | READY
  | MOTION_DETECTED
  | ALARM_ACTIVE
  | ALARM_DISABLED
  | RFID_WRITE_MODE
deriving DecidableEq

/-- MQTT topics written by the firmware: `events` is `topic_pub`
(`home/arduino/events`), `auth_requests` is `topic_auth_request`
(`home/arduino/auth_requests`) (main.py lines 25-29). -/
inductive MqttTopic
  | events
  | auth_requests
deriving DecidableEq

/-- Observable side effects of a handler, in program order:
`uartCmd c` is `send_uart_command(c)`, `uartData c d` is
`send_uart_command_with_data(c, d)`, `publish t m` is
`safe_mqtt_publish(t, m)`. -/
inductive Effect
  | uartCmd (cmd : Nat)
  | uartData (cmd : Nat) (data : String)
  | publish (topic : MqttTopic) (msg : String)
deriving DecidableEq

-- Message codes from Arduino (main.py lines 32-43)
def MSG_STATUS_READY : Nat := 1
def MSG_MOTION_DETECTED : Nat := 2
def MSG_MOTION_STOPPED : Nat := 3
def MSG_RFID_DETECTED : Nat := 4
def MSG_BUTTON_PRESSED : Nat := 5
def MSG_RFID_READ_SUCCESS : Nat := 6
def MSG_RFID_READ_FAILED : Nat := 7
def MSG_RFID_WRITE_SUCCESS : Nat := 8
def MSG_RFID_WRITE_FAILED : Nat := 9
def MSG_RFID_WRITE_COMPLETED : Nat := 10
def MSG_STATUS_UPDATE : Nat := 11
def MSG_HEARTBEAT : Nat := 12

-- Commands to Arduino (main.py lines 46-53)
def CMD_SET_LED_RGB : Nat := 20
def CMD_SET_BUZZER_ON : Nat := 21
def CMD_SET_BUZZER_OFF : Nat := 22
def CMD_RFID_WRITE_PREPARE : Nat := 23
def CMD_RFID_WRITE_CONFIRM : Nat := 24
def CMD_RFID_NORMAL_MODE : Nat := 25
def CMD_ACK : Nat := 26
def CMD_REQUEST_STATUS : Nat := 27

/-- RGB triples (the predefined colour constants are tuples in the source). -/
abbrev Color := Nat × Nat × Nat

def LED_OFF : Color := (0, 0, 0)
def LED_RED : Color := (255, 0, 0)
def LED_GREEN : Color := (0, 255, 0)
def LED_ORANGE : Color := (255, 165, 0)

-- Timing constants (main.py lines 78-79, 90, 98)
def alarm_disable_duration : Nat := 60000
def motion_grace_period : Nat := 5000
def arduino_timeout : Nat := 30000
def led_blink_interval : Nat := 200

/-- Model of `time.ticks_diff(a, b)` on a monotonic, non-wrapping clock.
Every use in the source compares this difference to a positive constant,
where truncated subtraction agrees with the signed difference. -/
def ticks_diff (a b : Nat) : Nat := a - b

/-- Module-level mutable state of main.py (lines 74-104), minus the
network/MQTT handles which are out of the modelled core. -/
structure PicoState where
  current_state : SecState
  motion_start_time : Nat
  alarm_disabled_time : Nat
  current_rfid_secret : Option String
  manually_activated : Bool
  alarm_disable_end_time : Nat
  alarm_disable_permanent : Bool
  led_blink_active : Bool
  led_blink_count : Nat
  led_blink_max_count : Nat
  led_blink_last_time : Nat
  led_blink_is_on : Bool
  led_blink_color : Color
  last_arduino_heartbeat : Nat
  arduino_connected : Bool
deriving DecidableEq

/-- Initial values of the module-level globals (main.py lines 74-104). -/
def initState : PicoState where
  current_state := SecState.READY
  motion_start_time := 0
  alarm_disabled_time := 0
  current_rfid_secret := none
  manually_activated := false
  alarm_disable_end_time := 0
  alarm_disable_permanent := false
  led_blink_active := false
  led_blink_count := 0
  led_blink_max_count := 0
  led_blink_last_time := 0
  led_blink_is_on := false
  led_blink_color := LED_OFF
  last_arduino_heartbeat := 0
  arduino_connected := false

/-- Channel clamping in `set_led_color`: `max(0, min(255, int(x)))`;
on `Nat` the lower clamp is the identity. -/
def clamp255 (x : Nat) : Nat := min 255 x

/-- The `"r,g,b"` payload built by `set_led_color` for a tuple argument
(main.py lines 289-296). -/
def rgbData (c : Color) : String :=
  toString (clamp255 c.1) ++ "," ++ toString (clamp255 c.2.1) ++ ","
    ++ toString (clamp255 c.2.2)

/-- `set_led_color(color)` (main.py lines 274-306), tuple branch: every call
site in the source passes an RGB tuple constant.  The function only emits a
`CMD_SET_LED_RGB` UART command; it touches none of the module state (in
particular none of the `led_blink_*` globals). -/
def set_led_color (c : Color) : Effect :=
  Effect.uartData CMD_SET_LED_RGB (rgbData c)

/-- `start_led_blink(color, blink_count)` (main.py lines 308-327). -/
def start_led_blink (s : PicoState) (now : Nat) (color : Color)
    (blink_count : Nat) : PicoState × List Effect :=
  ({ s with
      led_blink_active := true
      led_blink_count := 0
      led_blink_max_count := blink_count * 2
      led_blink_last_time := now
      led_blink_is_on := true
      led_blink_color := color },
   [set_led_color color])

/-- `update_led_blink()` (main.py lines 329-357). -/
def update_led_blink (s : PicoState) (now : Nat) : PicoState × List Effect :=
  if s.led_blink_active = false then (s, [])
  else if led_blink_interval ≤ ticks_diff now s.led_blink_last_time then
    let count := s.led_blink_count + 1
    if s.led_blink_max_count ≤ count then
      ({ s with
          led_blink_count := count
          led_blink_last_time := now
          led_blink_active := false
          led_blink_is_on := false },
       [set_led_color LED_OFF])
    else if s.led_blink_is_on then
      ({ s with
          led_blink_count := count
          led_blink_last_time := now
          led_blink_is_on := false },
       [set_led_color LED_OFF])
    else
      ({ s with
          led_blink_count := count
          led_blink_last_time := now
          led_blink_is_on := true },
       [set_led_color s.led_blink_color])
  else (s, [])

/-- `handle_motion_detected()` (main.py lines 359-384). -/
def handle_motion_detected (s : PicoState) (now : Nat) :
    PicoState × List Effect :=
  if s.current_state = SecState.ALARM_DISABLED then
    (s, [Effect.publish MqttTopic.events "MOTION_DETECTED"])
  else if s.current_state = SecState.ALARM_ACTIVE then
    (s, [Effect.publish MqttTopic.events "MOTION_DETECTED"])
  else if s.current_state = SecState.READY then
    ({ s with
        motion_start_time := now
        current_state := SecState.MOTION_DETECTED },
     [Effect.publish MqttTopic.events "MOTION_DETECTED",
      set_led_color LED_ORANGE])
  else
    (s, [Effect.publish MqttTopic.events "MOTION_DETECTED"])

/-- `handle_motion_stopped()` (main.py lines 386-409). -/
def handle_motion_stopped (s : PicoState) : PicoState × List Effect :=
  if s.current_state = SecState.ALARM_DISABLED then
    (s, [Effect.publish MqttTopic.events "MOTION_STOPPED"])
  else if s.current_state = SecState.ALARM_ACTIVE then
    (s, [Effect.publish MqttTopic.events "MOTION_STOPPED"])
  else if s.current_state = SecState.MOTION_DETECTED then
    ({ s with current_state := SecState.READY },
     [Effect.publish MqttTopic.events "MOTION_STOPPED",
      set_led_color LED_OFF])
  else
    (s, [Effect.publish MqttTopic.events "MOTION_STOPPED"])

/-- `activate_alarm()` (main.py lines 419-432). -/
def activate_alarm (s : PicoState) : PicoState × List Effect :=
  if s.current_state = SecState.ALARM_DISABLED then (s, [])
  else
    ({ s with
        current_state := SecState.ALARM_ACTIVE
        manually_activated := false },
     [Effect.uartCmd CMD_SET_BUZZER_ON,
      set_led_color LED_RED,
      Effect.publish MqttTopic.events "ALARM_TRIGGERED"])

/-- `check_motion_timeout()` (main.py lines 411-417). -/
def check_motion_timeout (s : PicoState) (now : Nat) :
    PicoState × List Effect :=
  if s.current_state = SecState.MOTION_DETECTED then
    if motion_grace_period < ticks_diff now s.motion_start_time then
      activate_alarm s
    else (s, [])
  else (s, [])

/-- `handle_rfid_detected(secret_key)` (main.py lines 434-443). -/
def handle_rfid_detected (s : PicoState) (secret_key : String) :
    PicoState × List Effect :=
  ({ s with current_rfid_secret := some secret_key },
   [Effect.publish MqttTopic.auth_requests ("AUTH_REQUEST:" ++ secret_key)])

/-- `handle_auth_success()` (main.py lines 445-464). -/
def handle_auth_success (s : PicoState) (now : Nat) :
    PicoState × List Effect :=
  if s.manually_activated = true ∧ s.current_state = SecState.ALARM_ACTIVE then
    (s, [Effect.publish MqttTopic.auth_requests "ACK_AUTH_SUCCESS",
         Effect.publish MqttTopic.events "AUTH_SUCCESS_BLOCKED"])
  else
    ({ s with
        current_state := SecState.ALARM_DISABLED
        alarm_disabled_time := now },
     [Effect.uartCmd CMD_SET_BUZZER_OFF,
      set_led_color LED_GREEN,
      Effect.publish MqttTopic.auth_requests "ACK_AUTH_SUCCESS",
      Effect.publish MqttTopic.events "ALARM_DISABLED_RFID"])

/-- `handle_auth_failed()` (main.py lines 467-475). -/
def handle_auth_failed (s : PicoState) (now : Nat) :
    PicoState × List Effect :=
  let r := start_led_blink s now LED_RED 3
  (r.1, r.2 ++
    [Effect.publish MqttTopic.auth_requests "ACK_AUTH_FAILED",
     Effect.publish MqttTopic.events "AUTH_FAILED"])

/-- `disable_alarm()` (main.py lines 482-492).  Sets the state but leaves
`manually_activated`, `alarm_disable_permanent`, `alarm_disable_end_time`
and `alarm_disabled_time` untouched. -/
def disable_alarm (s : PicoState) : PicoState × List Effect :=
  ({ s with current_state := SecState.ALARM_DISABLED },
   [Effect.uartCmd CMD_SET_BUZZER_OFF,
    set_led_color LED_GREEN,
    Effect.publish MqttTopic.events "ACK_CMD_DISABLE_ALARM"])

/-- `activate_alarm_manual()` (main.py lines 494-508). -/
def activate_alarm_manual (s : PicoState) : PicoState × List Effect :=
  ({ s with
      current_state := SecState.ALARM_ACTIVE
      manually_activated := true
      alarm_disable_permanent := false
      alarm_disable_end_time := 0 },
   [Effect.uartCmd CMD_SET_BUZZER_ON,
    set_led_color LED_RED,
    Effect.publish MqttTopic.events "ALARM_TRIGGERED",
    Effect.publish MqttTopic.events "ACK_CMD_ACTIVATE_ALARM"])

/-- `disable_alarm_permanent()` (main.py lines 510-523). -/
def disable_alarm_permanent (s : PicoState) : PicoState × List Effect :=
  ({ s with
      current_state := SecState.ALARM_DISABLED
      manually_activated := false
      alarm_disable_permanent := true
      alarm_disable_end_time := 0 },
   [Effect.uartCmd CMD_SET_BUZZER_OFF,
    set_led_color LED_GREEN,
    Effect.publish MqttTopic.events "ACK_CMD_DISABLE_ALARM"])

/-- `disable_alarm_timed(minutes)` (main.py lines 525-538). -/
def disable_alarm_timed (s : PicoState) (now minutes : Nat) :
    PicoState × List Effect :=
  ({ s with
      current_state := SecState.ALARM_DISABLED
      manually_activated := false
      alarm_disable_permanent := false
      alarm_disable_end_time := now + minutes * 60 * 1000 },
   [Effect.uartCmd CMD_SET_BUZZER_OFF,
    set_led_color LED_GREEN,
    Effect.publish MqttTopic.events "ACK_CMD_DISABLE_ALARM"])

/-- `enable_alarm()` (main.py lines 540-553). -/
def enable_alarm (s : PicoState) : PicoState × List Effect :=
  ({ s with
      current_state := SecState.READY
      manually_activated := false
      alarm_disable_permanent := false
      alarm_disable_end_time := 0 },
   [Effect.uartCmd CMD_SET_BUZZER_OFF,
    set_led_color LED_OFF,
    Effect.publish MqttTopic.events "SECURITY_STATE:READY"])

/-- `reset_alarm()` (main.py lines 555-570). -/
def reset_alarm (s : PicoState) : PicoState × List Effect :=
  ({ s with
      current_state := SecState.READY
      manually_activated := false
      alarm_disable_permanent := false
      alarm_disable_end_time := 0 },
   [Effect.uartCmd CMD_SET_BUZZER_OFF,
    set_led_color LED_OFF,
    Effect.publish MqttTopic.events "ALARM_RESET",
    Effect.publish MqttTopic.events "SECURITY_STATE:READY"])

/-- `handle_button_pressed()` (main.py lines 477-480). -/
def handle_button_pressed (s : PicoState) : PicoState × List Effect :=
  reset_alarm s

/-- `prepare_rfid_write_mode(secret_key)` (main.py lines 572-583). -/
def prepare_rfid_write_mode (s : PicoState) (secret_key : String) :
    PicoState × List Effect :=
  ({ s with current_state := SecState.RFID_WRITE_MODE },
   [Effect.uartData CMD_RFID_WRITE_PREPARE secret_key,
    Effect.publish MqttTopic.events
      ("STATUS_RFID_WRITE_PREPARED:" ++ secret_key)])

/-- `confirm_rfid_write_mode()` (main.py lines 585-597). -/
def confirm_rfid_write_mode (s : PicoState) : PicoState × List Effect :=
  if s.current_state = SecState.RFID_WRITE_MODE then
    (s, [Effect.uartCmd CMD_RFID_WRITE_CONFIRM,
         Effect.publish MqttTopic.events "STATUS_RFID_WRITE_ACTIVE"])
  else
    (s, [Effect.publish MqttTopic.events "ERROR_RFID_WRITE_NOT_PREPARED"])

/-- `initialize_rfid_write()` (main.py lines 603-607). -/
def initialize_rfid_write (s : PicoState) : PicoState × List Effect :=
  if s.current_state = SecState.RFID_WRITE_MODE then
    (s, [Effect.publish MqttTopic.events "ACK_CMD_RFID_WRITE_INITALIZE"])
  else (s, [])

/-- `abort_operation()` (main.py lines 609-619).  Sets the state to `READY`
but leaves `manually_activated`, `alarm_disable_permanent` and
`alarm_disable_end_time` untouched. -/
def abort_operation (s : PicoState) : PicoState × List Effect :=
  ({ s with current_state := SecState.READY },
   [Effect.uartCmd CMD_RFID_NORMAL_MODE,
    set_led_color LED_OFF,
    Effect.publish MqttTopic.events "ACK_CMD_ABORT"])

/-- `check_alarm_timeout()` (main.py lines 621-639). -/
def check_alarm_timeout (s : PicoState) (now : Nat) :
    PicoState × List Effect :=
  if s.current_state = SecState.ALARM_DISABLED then
    if s.alarm_disable_permanent then (s, [])
    else if 0 < s.alarm_disable_end_time ∧ s.alarm_disable_end_time ≤ now then
      enable_alarm s
    else if s.alarm_disable_end_time = 0 ∧
        alarm_disable_duration < ticks_diff now s.alarm_disabled_time then
      ({ s with current_state := SecState.READY },
       [set_led_color LED_OFF,
        Effect.publish MqttTopic.events "ALARM_REARMED"])
    else (s, [])
  else (s, [])

/-- `handle_arduino_heartbeat()` (main.py lines 641-654). -/
def handle_arduino_heartbeat (s : PicoState) (now : Nat) :
    PicoState × List Effect :=
  if s.arduino_connected then
    ({ s with last_arduino_heartbeat := now },
     [Effect.publish MqttTopic.events "ARDUINO_HEARTBEAT"])
  else
    ({ s with last_arduino_heartbeat := now, arduino_connected := true },
     [Effect.publish MqttTopic.events "ARDUINO_HEARTBEAT",
      Effect.publish MqttTopic.events "ARDUINO_CONNECTED"])

/-- `check_arduino_connection()` (main.py lines 662-671). -/
def check_arduino_connection (s : PicoState) (now : Nat) :
    PicoState × List Effect :=
  if s.arduino_connected then
    if arduino_timeout < ticks_diff now s.last_arduino_heartbeat then
      ({ s with arduino_connected := false },
       [Effect.publish MqttTopic.events "ARDUINO_DISCONNECTED"])
    else (s, [])
  else (s, [])

/-- `process_arduino_message(msg_code)` (main.py lines 697-737).
Note on the `MSG_RFID_WRITE_COMPLETED` branch: the Python function has no
`global current_state` declaration, so its `current_state =
SecurityState.READY` assignment (line 727) binds a function-local variable
and the module-level state is unchanged; the branch's publish and LED-off
effects do occur.  The embedding reproduces that behaviour. -/
def process_arduino_message (s : PicoState) (now : Nat) (msg_code : Nat) :
    PicoState × List Effect :=
  if msg_code = MSG_STATUS_READY then
    (s, [Effect.publish MqttTopic.events "STATUS_READY"])
  else if msg_code = MSG_MOTION_DETECTED then
    handle_motion_detected s now
  else if msg_code = MSG_MOTION_STOPPED then
    handle_motion_stopped s
  else if msg_code = MSG_RFID_DETECTED then
    (s, [])
  else if msg_code = MSG_BUTTON_PRESSED then
    handle_button_pressed s
  else if msg_code = MSG_RFID_WRITE_SUCCESS then
    (s, [Effect.publish MqttTopic.events "STATUS_RFID_WRITE_SUCCESS"])
  else if msg_code = MSG_RFID_WRITE_FAILED then
    (s, [Effect.publish MqttTopic.events "STATUS_RFID_WRITE_FAILED"])
  else if msg_code = MSG_RFID_WRITE_COMPLETED then
    (s, [Effect.publish MqttTopic.events "STATUS_RFID_WRITE_COMPLETED",
         set_led_color LED_OFF])
  else if msg_code = MSG_HEARTBEAT then
    handle_arduino_heartbeat s now
  else if msg_code = MSG_STATUS_UPDATE then
    (s, [])
  else (s, [])

/-- Python `str.startswith` on the character sequence of the string. -/
def pyStartsWith (s pre : String) : Bool :=
  pre.data.isPrefixOf s.data

/-- Python slice `s[n:]` (character indices; out-of-range gives `""`). -/
def pySlice (s : String) (n : Nat) : String :=
  String.mk (s.data.drop n)

/-- Value of one ASCII digit character. -/
def digitVal (c : Char) : Nat := c.toNat - 48

/-- Python `int(s)` for the non-negative decimal strings this firmware
receives: `some` of the value on a non-empty all-digit string, `none`
(a `ValueError`) otherwise. -/
def pyInt (s : String) : Option Nat :=
  if s.data ≠ [] ∧ s.data.all Char.isDigit then
    some (s.data.foldl (fun n c => n * 10 + digitVal c) 0)
  else none

/-- `sub_cb(topic, msg)` (main.py lines 136-176): the MQTT dispatch chain.
`isAuthTopic` is true for a message on `topic_auth_response`.  The whole
body runs inside `try/except`, so a `ValueError` from `int` in the
`CMD_DISABLE_ALARM_TIMED` branch aborts the handler before any state
change (the `none` case). -/
def sub_cb (s : PicoState) (now : Nat) (isAuthTopic : Bool) (msg : String) :
    PicoState × List Effect :=
  if isAuthTopic then
    if msg = "AUTH_SUCCESS" then handle_auth_success s now
    else if msg = "AUTH_FAILED" then handle_auth_failed s now
    else (s, [])
  else if msg = "CMD_DISABLE_ALARM" then disable_alarm s
  else if msg = "CMD_ACTIVATE_ALARM" then activate_alarm_manual s
  else if msg = "CMD_RESET_ALARM" then reset_alarm s
  else if msg = "CMD_DISABLE_ALARM_PERMANENT" then disable_alarm_permanent s
  else if pyStartsWith msg "CMD_DISABLE_ALARM_TIMED:" then
    match pyInt (pySlice msg 25) with
    | some minutes => disable_alarm_timed s now minutes
    | none => (s, [])
  else if msg = "CMD_ENABLE_ALARM" then enable_alarm s
  else if pyStartsWith msg "CMD_RFID_WRITE_PREPARE:" then
    prepare_rfid_write_mode s (pySlice msg 23)
  else if msg = "CMD_RFID_WRITE_CONFIRM" then confirm_rfid_write_mode s
  else if msg = "CMD_ABORT" then abort_operation s
  else if msg = "CMD_RFID_WRITE_INITALIZE" then initialize_rfid_write s
  else (s, [])

/-- Dispatch of a parsed data frame `code:data` in the main loop
(main.py lines 801-812). -/
def dispatch_data_frame (s : PicoState) (now : Nat) (msg_code : Nat)
    (data : String) : PicoState × List Effect :=
  if msg_code = MSG_RFID_READ_SUCCESS then
    handle_rfid_detected s data
  else if msg_code = MSG_RFID_READ_FAILED then
    (s, [Effect.publish MqttTopic.events "RFID_READ_FAILED"])
  else if msg_code = MSG_STATUS_UPDATE then
    (s, [Effect.publish MqttTopic.events ("ARDUINO_STATUS:" ++ data)])
  else if msg_code = MSG_HEARTBEAT then
    handle_arduino_heartbeat s now
  else (s, [])

/-- One external event consumed by the security controller: an MQTT
message on the command or auth-response topic, a dispatched device
message (single-byte or data frame), or one of the periodic checks run
each main-loop iteration (main.py lines 752-779). -/
inductive Event
  | cmd (msg : String)
  | auth (msg : String)
  | device (code : Nat)
  | deviceData (code : Nat) (data : String)
  | motionTick
  | alarmTick
  | connTick
  | blinkTick

/-- One controller step: dispatch of a single event at time `now`. -/
def step (s : PicoState) (now : Nat) (e : Event) : PicoState × List Effect :=
  match e with
  | Event.cmd msg => sub_cb s now false msg
  | Event.auth msg => sub_cb s now true msg
  | Event.device code => process_arduino_message s now code
  | Event.deviceData code data => dispatch_data_frame s now code data
  | Event.motionTick => check_motion_timeout s now
  | Event.alarmTick => check_alarm_timeout s now
  | Event.connTick => check_arduino_connection s now
  | Event.blinkTick => update_led_blink s now

/-- Processing a sequence of timestamped events. -/
def run (s : PicoState) : List (Nat × Event) → PicoState
  | [] => s
  | (now, e) :: rest => run (step s now e).1 rest

/-!
Frame decoder (main.py lines 782-852).

The inner UART loop keeps `uart_buffer` and, after reading a lone byte in
`[1, 28]`, busy-polls for up to 10 ms to see whether a `':'` follows.  The
embedding makes that nested wait an explicit decoder mode: `await = some op`
means the decoder is inside the 10 ms lookahead for opcode `op` (with
`uart_buffer == bytes([op])`).  Each input byte carries a flag `prompt`
telling whether it arrives within the 10 ms window measured from the moment
the decoder started waiting for it; the flag is only consulted while a
lookahead is pending, matching the source, where timing matters only inside
the busy-poll.  End of the input list models permanent silence, which fires
the pending timeout.
-/

/-- Messages reassembled from the byte stream (the `Simple`/`WithData`
shapes of the serial protocol). -/
inductive DeviceMessage
  | Simple (op : Nat)
  | WithData (op : Nat) (payload : List Nat)
deriving DecidableEq

/-- Byte values treated as whitespace by Python's `str.strip()` within the
single-byte (ASCII) range: `\t \n \v \f \r` (9-13), the separator controls
28-31, and space 32. -/
def pyWhitespace (b : Nat) : Bool :=
  decide (b = 9 ∨ b = 10 ∨ b = 11 ∨ b = 12 ∨ b = 13 ∨ b = 28 ∨ b = 29 ∨
    b = 30 ∨ b = 31 ∨ b = 32)

/-- Model of `.decode('utf-8').strip()` applied to the payload bytes
(main.py line 797): drop leading and trailing whitespace bytes.  Payload
lists stand for the UTF-8 encoding of the payload text; whitespace is
modelled in the ASCII range. -/
def pyStrip (l : List Nat) : List Nat :=
  ((l.dropWhile pyWhitespace).reverse.dropWhile pyWhitespace).reverse

/-- Newline handling of `uart_buffer` (main.py lines 788-816):
`if uart_buffer and b':' in uart_buffer`, `split(b':', 1)`, the first byte
of the part before the first `':'` is the message code, the part after it
(decoded and stripped) is the data; a missing `':'` or an empty first part
yields no message. -/
def parseDataFrame (buf : List Nat) : Option DeviceMessage :=
  if 58 ∈ buf then
    match buf.takeWhile (fun b => b != 58) with
    | [] => none
    | c :: _ =>
      some (DeviceMessage.WithData c
        (pyStrip ((buf.dropWhile (fun b => b != 58)).drop 1)))
  else none

/-- Decoder state: the accumulated `uart_buffer`, plus `await = some op`
while the 10 ms lookahead after a lone opcode byte `op` is pending. -/
structure DecState where
  buf : List Nat
  await : Option Nat
deriving DecidableEq

/-- Handling of one byte outside a pending lookahead (main.py lines
788-826): `'\n'` terminates and parses the buffer; otherwise the byte is
appended, and a lone byte in `[1, 28]` opens the lookahead window. -/
def feedNormal (buf : List Nat) (b : Nat) : DecState × List DeviceMessage :=
  if b = 10 then
    (⟨[], none⟩,
     match parseDataFrame buf with
     | some m => [m]
     | none => [])
  else
    let buf' := buf ++ [b]
    if buf'.length = 1 ∧ 1 ≤ b ∧ b ≤ 28 then (⟨buf', some b⟩, [])
    else (⟨buf', none⟩, [])

/-- Handling of one timed byte (main.py lines 827-852).  With a lookahead
pending for `op`: a prompt `':'` turns the buffer into `[op, ':']`; any
other prompt byte completes `Simple op` and the consumed byte becomes the
whole new buffer (`uart_buffer = next_byte`, line 845); a late byte means
the 10 ms window expired first, so `Simple op` completes with an empty
buffer and the byte is then handled normally. -/
def feedByte (st : DecState) (prompt : Bool) (b : Nat) :
    DecState × List DeviceMessage :=
  match st.await with
  | some op =>
    if prompt then
      if b = 58 then (⟨st.buf ++ [58], none⟩, [])
      else (⟨[b], none⟩, [DeviceMessage.Simple op])
    else
      let r := feedNormal [] b
      (r.1, DeviceMessage.Simple op :: r.2)
  | none => feedNormal st.buf b

/-- Feeding a list of timed bytes through the decoder. -/
def drainBytes (st : DecState) : List (Bool × Nat) →
    DecState × List DeviceMessage
  | [] => (st, [])
  | (p, b) :: rest =>
    let r := feedByte st p b
    let r' := drainBytes r.1 rest
    (r'.1, r.2 ++ r'.2)

/-- Decoding a timed byte stream from the initial decoder state, followed
by silence: a still-pending lookahead times out (main.py lines 848-852),
completing `Simple op` and clearing the buffer.  Returns the yielded
messages and the residual buffer content. -/
def decodeStream (events : List (Bool × Nat)) :
    List DeviceMessage × List Nat :=
  let r := drainBytes ⟨[], none⟩ events
  match r.1.await with
  | some op => (r.2 ++ [DeviceMessage.Simple op], [])
  | none => (r.2, r.1.buf)

/-- A byte list delivered back-to-back: every byte arrives within the
disambiguation window. -/
def promptly (l : List Nat) : List (Bool × Nat) :=
  l.map (fun b => (true, b))

/-- `send_uart_command_with_data(cmd, data)` (main.py lines 267-272) at the
byte level: the opcode byte, `':'` (58), the payload bytes, `'\n'` (10). -/
def encodeFrame (cmd : Nat) (payload : List Nat) : List Nat :=
  cmd :: 58 :: (payload ++ [10])

/-!
Theorems.
-/

/-- C1 counterexample: from the initial `Ready` state, the two-command
sequence `CMD_ACTIVATE_ALARM`, `CMD_DISABLE_ALARM` ends with
`manually_activated = true` while the security state is `ALARM_DISABLED`,
not `ALARM_ACTIVE`: `disable_alarm` (a non-RFID transition out of
`AlarmActive`) does not clear `ManuallyArmed`, so the claimed invariant is
false. -/
theorem manuallyArmed_escapes_alarmActive :
    (run initState [(0, Event.cmd "CMD_ACTIVATE_ALARM"),
        (1, Event.cmd "CMD_DISABLE_ALARM")]).manually_activated = true ∧
    (run initState [(0, Event.cmd "CMD_ACTIVATE_ALARM"),
        (1, Event.cmd "CMD_DISABLE_ALARM")]).current_state
      ≠ SecState.ALARM_ACTIVE := by
  decide

/-- Auxiliary predicate for the `ManuallyArmed` analysis: a handler result
`r` starting from `s` can have the flag set only if it was already set or
the resulting state is `ALARM_ACTIVE`. -/
def FlagOk (r : PicoState × List Effect) (s : PicoState) : Prop :=
  r.1.manually_activated = true →
    s.manually_activated = true ∨ r.1.current_state = SecState.ALARM_ACTIVE

theorem flagOk_handle_motion_detected (s : PicoState) (now : Nat) :
    FlagOk (handle_motion_detected s now) s := by
  unfold FlagOk handle_motion_detected
  split_ifs <;> exact fun h => Or.inl h

theorem flagOk_handle_motion_stopped (s : PicoState) :
    FlagOk (handle_motion_stopped s) s := by
  unfold FlagOk handle_motion_stopped
  split_ifs <;> exact fun h => Or.inl h

theorem flagOk_activate_alarm (s : PicoState) :
    FlagOk (activate_alarm s) s := by
  unfold FlagOk activate_alarm
  split_ifs <;> first
    | exact fun h => Or.inl h
    | exact fun _ => Or.inr rfl
    | exact fun h => h.elim
    | simp

theorem flagOk_check_motion_timeout (s : PicoState) (now : Nat) :
    FlagOk (check_motion_timeout s now) s := by
  unfold check_motion_timeout
  split_ifs <;> first
    | exact flagOk_activate_alarm s
    | exact fun h => Or.inl h

theorem flagOk_handle_auth_success (s : PicoState) (now : Nat) :
    FlagOk (handle_auth_success s now) s := by
  unfold FlagOk handle_auth_success
  split_ifs <;> exact fun h => Or.inl h

theorem flagOk_handle_auth_failed (s : PicoState) (now : Nat) :
    FlagOk (handle_auth_failed s now) s :=
  fun h => Or.inl h

theorem flagOk_reset_alarm (s : PicoState) :
    FlagOk (reset_alarm s) s :=
  fun h => Bool.noConfusion h

theorem flagOk_check_alarm_timeout (s : PicoState) (now : Nat) :
    FlagOk (check_alarm_timeout s now) s := by
  unfold FlagOk check_alarm_timeout enable_alarm
  split_ifs <;> first
    | exact fun h => Or.inl h
    | exact fun h => h.elim
    | simp

theorem flagOk_handle_arduino_heartbeat (s : PicoState) (now : Nat) :
    FlagOk (handle_arduino_heartbeat s now) s := by
  unfold FlagOk handle_arduino_heartbeat
  split_ifs <;> exact fun h => Or.inl h

theorem flagOk_check_arduino_connection (s : PicoState) (now : Nat) :
    FlagOk (check_arduino_connection s now) s := by
  unfold FlagOk check_arduino_connection
  split_ifs <;> exact fun h => Or.inl h

theorem flagOk_update_led_blink (s : PicoState) (now : Nat) :
    FlagOk (update_led_blink s now) s := by
  simp only [FlagOk, update_led_blink]
  split_ifs <;> first
    | exact fun h => Or.inl h
    | simp

theorem flagOk_confirm_rfid_write_mode (s : PicoState) :
    FlagOk (confirm_rfid_write_mode s) s := by
  unfold FlagOk confirm_rfid_write_mode
  split_ifs <;> exact fun h => Or.inl h

theorem flagOk_initialize_rfid_write (s : PicoState) :
    FlagOk (initialize_rfid_write s) s := by
  unfold FlagOk initialize_rfid_write
  split_ifs <;> exact fun h => Or.inl h

theorem flagOk_process_arduino_message (s : PicoState) (now code : Nat) :
    FlagOk (process_arduino_message s now code) s := by
  unfold process_arduino_message handle_button_pressed
  split_ifs <;> first
    | exact flagOk_handle_motion_detected s now
    | exact flagOk_handle_motion_stopped s
    | exact flagOk_reset_alarm s
    | exact flagOk_handle_arduino_heartbeat s now
    | exact fun h => Or.inl h

set_option maxHeartbeats 2000000 in
theorem flagOk_sub_cb (s : PicoState) (now : Nat) (isAuthTopic : Bool)
    (msg : String) : FlagOk (sub_cb s now isAuthTopic msg) s := by
  unfold sub_cb
  split_ifs <;> first
    | exact fun h => Or.inl h
    | exact fun _ => Or.inr rfl
    | exact fun h => h.elim
    | exact fun h => Bool.noConfusion h
    | exact flagOk_handle_auth_success s now
    | exact flagOk_handle_auth_failed s now
    | exact flagOk_reset_alarm s
    | exact flagOk_confirm_rfid_write_mode s
    | exact flagOk_initialize_rfid_write s
    | (cases hp : pyInt (pySlice msg 25) <;> simp only [hp] <;> first
        | exact fun h => Bool.noConfusion h
        | exact fun h => h.elim
        | exact fun h => Or.inl h)

theorem flagOk_dispatch_data_frame (s : PicoState) (now code : Nat)
    (data : String) : FlagOk (dispatch_data_frame s now code data) s := by
  unfold dispatch_data_frame
  split_ifs <;> first
    | exact fun h => Or.inl h
    | exact flagOk_handle_arduino_heartbeat s now

theorem flagOk_step (s : PicoState) (now : Nat) (e : Event) :
    FlagOk (step s now e) s := by
  cases e with
  | cmd msg => exact flagOk_sub_cb s now false msg
  | auth msg => exact flagOk_sub_cb s now true msg
  | device code => exact flagOk_process_arduino_message s now code
  | deviceData code data => exact flagOk_dispatch_data_frame s now code data
  | motionTick => exact flagOk_check_motion_timeout s now
  | alarmTick => exact flagOk_check_alarm_timeout s now
  | connTick => exact flagOk_check_arduino_connection s now
  | blinkTick => exact flagOk_update_led_blink s now

/-- C1 (amended): `ManuallyArmed` becomes true only on
`CMD_ACTIVATE_ALARM`, which simultaneously sets `ALARM_ACTIVE` (so a step
can set the flag only together with the state being `AlarmActive`);
`CMD_RESET_ALARM` and `CMD_ENABLE_ALARM` clear it; but `CMD_DISABLE_ALARM`
and `CMD_ABORT` leave it unchanged, so it can remain true after those
transitions out of `AlarmActive`. -/
theorem manuallyArmed_step_behavior (s : PicoState) (now : Nat) (e : Event) :
    ((step s now e).1.manually_activated = true →
      s.manually_activated = true ∨
        (step s now e).1.current_state = SecState.ALARM_ACTIVE) ∧
    (step s now (Event.cmd "CMD_DISABLE_ALARM")).1.manually_activated
      = s.manually_activated ∧
    (step s now (Event.cmd "CMD_ABORT")).1.manually_activated
      = s.manually_activated ∧
    (step s now (Event.cmd "CMD_RESET_ALARM")).1.manually_activated
      = false ∧
    (step s now (Event.cmd "CMD_ENABLE_ALARM")).1.manually_activated
      = false :=
  ⟨flagOk_step s now e, rfl, rfl, rfl, rfl⟩

/-- Witness for the amended C1 theorem at a concrete input. -/
theorem manuallyArmed_step_behavior_witness :
    (((step initState 0 (Event.cmd "CMD_ACTIVATE_ALARM")).1.manually_activated
        = true →
      initState.manually_activated = true ∨
        (step initState 0
          (Event.cmd "CMD_ACTIVATE_ALARM")).1.current_state
          = SecState.ALARM_ACTIVE) ∧
    (step initState 0
      (Event.cmd "CMD_DISABLE_ALARM")).1.manually_activated
      = initState.manually_activated ∧
    (step initState 0 (Event.cmd "CMD_ABORT")).1.manually_activated
      = initState.manually_activated ∧
    (step initState 0 (Event.cmd "CMD_RESET_ALARM")).1.manually_activated
      = false ∧
    (step initState 0 (Event.cmd "CMD_ENABLE_ALARM")).1.manually_activated
      = false) :=
  manuallyArmed_step_behavior initState 0 (Event.cmd "CMD_ACTIVATE_ALARM")

/-- C2 (code behaviour at the failing input): the prefix
`CMD_DISABLE_ALARM_TIMED:` is 24 characters long, but `sub_cb` slices
`msg_str[25:]`, dropping the first digit of the minute count.
`CMD_DISABLE_ALARM_TIMED:1` therefore reaches `int('')`, which raises, so
the command is swallowed by the surrounding `except` and the state is
completely unchanged (never `ALARM_DISABLED`); `CMD_DISABLE_ALARM_TIMED:15`
disables the alarm until `now + 5*60*1000` instead of `now + 15*60*1000`. -/
theorem disableAlarmTimed_offByOne :
    step initState 0 (Event.cmd "CMD_DISABLE_ALARM_TIMED:1")
      = (initState, []) ∧
    (step initState 0
      (Event.cmd "CMD_DISABLE_ALARM_TIMED:15")).1.alarm_disable_end_time
      = 5 * 60 * 1000 ∧
    (step initState 0
      (Event.cmd "CMD_DISABLE_ALARM_TIMED:15")).1.current_state
      = SecState.ALARM_DISABLED := by
  decide

/-- C5 (code behaviour at the failing input): `MSG_RFID_WRITE_COMPLETED`
is 10, the byte value of `'\n'`, so the frame decoder consumes it as a
frame terminator and never yields `Simple 10`; and even when
`process_arduino_message(10)` runs, the missing `global current_state`
declaration makes its `current_state = READY` assignment local, so from
`RFID_WRITE_MODE` the status event and LED-off command are emitted but the
security state remains `RFID_WRITE_MODE` instead of becoming `Ready`. -/
theorem writeCompleted_unreachable_and_stateless :
    (decodeStream [(true, 10)]).1 = [] ∧
    (step { initState with current_state := SecState.RFID_WRITE_MODE } 0
      (Event.device 10)).1.current_state = SecState.RFID_WRITE_MODE ∧
    Effect.publish MqttTopic.events "STATUS_RFID_WRITE_COMPLETED"
      ∈ (step { initState with current_state := SecState.RFID_WRITE_MODE } 0
          (Event.device 10)).2 ∧
    set_led_color LED_OFF
      ∈ (step { initState with current_state := SecState.RFID_WRITE_MODE } 0
          (Event.device 10)).2 := by
  decide

/-- C6: with `ManuallyArmed` true in `AlarmActive`, an `AUTH_SUCCESS`
message leaves the state exactly unchanged (still `AlarmActive`, still
manually armed), publishes `ACK_AUTH_SUCCESS` and `AUTH_SUCCESS_BLOCKED`,
and sends no buzzer-off command to the device. -/
theorem authSuccess_blocked_when_manually_armed (s : PicoState) (now : Nat)
    (hm : s.manually_activated = true)
    (hs : s.current_state = SecState.ALARM_ACTIVE) :
    step s now (Event.auth "AUTH_SUCCESS")
      = (s, [Effect.publish MqttTopic.auth_requests "ACK_AUTH_SUCCESS",
             Effect.publish MqttTopic.events "AUTH_SUCCESS_BLOCKED"]) ∧
    Effect.uartCmd CMD_SET_BUZZER_OFF
      ∉ (step s now (Event.auth "AUTH_SUCCESS")).2 := by
  simp [step, sub_cb, handle_auth_success, hm, hs]

/-- Witness for the C6 theorem at a concrete manually-armed state. -/
theorem authSuccess_blocked_when_manually_armed_witness :
    ({ initState with
        current_state := SecState.ALARM_ACTIVE
        manually_activated := true } : PicoState).manually_activated
      = true ∧
    ({ initState with
        current_state := SecState.ALARM_ACTIVE
        manually_activated := true } : PicoState).current_state
      = SecState.ALARM_ACTIVE ∧
    (step { initState with
        current_state := SecState.ALARM_ACTIVE
        manually_activated := true } 0 (Event.auth "AUTH_SUCCESS")
      = ({ initState with
            current_state := SecState.ALARM_ACTIVE
            manually_activated := true },
         [Effect.publish MqttTopic.auth_requests "ACK_AUTH_SUCCESS",
          Effect.publish MqttTopic.events "AUTH_SUCCESS_BLOCKED"]) ∧
     Effect.uartCmd CMD_SET_BUZZER_OFF
       ∉ (step { initState with
            current_state := SecState.ALARM_ACTIVE
            manually_activated := true } 0
            (Event.auth "AUTH_SUCCESS")).2) :=
  ⟨rfl, rfl,
    authSuccess_blocked_when_manually_armed _ 0 rfl rfl⟩

/-- C8 counterexample: after `CMD_DISABLE_ALARM_PERMANENT` followed by
`CMD_ABORT` the controller is in `Ready` (not `AlarmDisabled`) with the
permanent-disable flag still set, because `abort_operation` does not clear
it; a further `CMD_DISABLE_ALARM` then yields `ALARM_DISABLED` with
`alarm_disable_permanent = true`, i.e. disable mode `Permanent`, not
`None` as the claim requires. -/
theorem disableAlarm_keeps_stale_mode :
    (run initState [(0, Event.cmd "CMD_DISABLE_ALARM_PERMANENT"),
        (1, Event.cmd "CMD_ABORT")]).current_state = SecState.READY ∧
    (run initState [(0, Event.cmd "CMD_DISABLE_ALARM_PERMANENT"),
        (1, Event.cmd "CMD_ABORT"),
        (2, Event.cmd "CMD_DISABLE_ALARM")]).current_state
      = SecState.ALARM_DISABLED ∧
    (run initState [(0, Event.cmd "CMD_DISABLE_ALARM_PERMANENT"),
        (1, Event.cmd "CMD_ABORT"),
        (2, Event.cmd "CMD_DISABLE_ALARM")]).alarm_disable_permanent
      = true := by
  decide

/-- C8 (amended): from any state, `CMD_DISABLE_ALARM` turns the buzzer
off, sets the LED green, publishes the ack, and moves the state to
`ALARM_DISABLED`; it leaves the disable-mode flags
(`alarm_disable_permanent`, `alarm_disable_end_time`) and the
`manually_activated` flag untouched, so the resulting disable mode is
`None` only if those flags were already clear. -/
theorem disableAlarm_sets_state_keeps_flags (s : PicoState) (now : Nat) :
    step s now (Event.cmd "CMD_DISABLE_ALARM")
      = ({ s with current_state := SecState.ALARM_DISABLED },
         [Effect.uartCmd CMD_SET_BUZZER_OFF,
          set_led_color LED_GREEN,
          Effect.publish MqttTopic.events "ACK_CMD_DISABLE_ALARM"]) ∧
    (step s now (Event.cmd "CMD_DISABLE_ALARM")).1.alarm_disable_permanent
      = s.alarm_disable_permanent ∧
    (step s now (Event.cmd "CMD_DISABLE_ALARM")).1.alarm_disable_end_time
      = s.alarm_disable_end_time ∧
    (step s now (Event.cmd "CMD_DISABLE_ALARM")).1.manually_activated
      = s.manually_activated := by
  exact ⟨rfl, rfl, rfl, rfl⟩

/-- C9: from `Ready`, a `MotionDetected` device message publishes
`MOTION_DETECTED` and starts the grace timer; the motion-timeout check 6 s
later (grace period 5 s, no `MotionStopped` in between) activates the
alarm: state `ALARM_ACTIVE`, `manually_activated` false, buzzer-on command
sent, `ALARM_TRIGGERED` published. -/
theorem motion_then_timeout_activates (s : PicoState) (t0 : Nat)
    (hs : s.current_state = SecState.READY) :
    Effect.publish MqttTopic.events "MOTION_DETECTED"
      ∈ (step s t0 (Event.device MSG_MOTION_DETECTED)).2 ∧
    (step (step s t0 (Event.device MSG_MOTION_DETECTED)).1 (t0 + 6000)
        Event.motionTick).1.current_state = SecState.ALARM_ACTIVE ∧
    (step (step s t0 (Event.device MSG_MOTION_DETECTED)).1 (t0 + 6000)
        Event.motionTick).1.manually_activated = false ∧
    Effect.uartCmd CMD_SET_BUZZER_ON
      ∈ (step (step s t0 (Event.device MSG_MOTION_DETECTED)).1 (t0 + 6000)
          Event.motionTick).2 ∧
    Effect.publish MqttTopic.events "ALARM_TRIGGERED"
      ∈ (step (step s t0 (Event.device MSG_MOTION_DETECTED)).1 (t0 + 6000)
          Event.motionTick).2 := by
  have h1 : step s t0 (Event.device MSG_MOTION_DETECTED)
      = ({ s with
            motion_start_time := t0
            current_state := SecState.MOTION_DETECTED },
         [Effect.publish MqttTopic.events "MOTION_DETECTED",
          set_led_color LED_ORANGE]) := by
    simp [step, process_arduino_message, handle_motion_detected, hs,
      MSG_STATUS_READY, MSG_MOTION_DETECTED]
  rw [h1]
  simp [step, check_motion_timeout, activate_alarm, motion_grace_period,
    ticks_diff, Nat.add_sub_cancel_left]

/-- Witness for the C9 theorem from the initial state at time 100. -/
theorem motion_then_timeout_activates_witness :
    initState.current_state = SecState.READY ∧
    (Effect.publish MqttTopic.events "MOTION_DETECTED"
      ∈ (step initState 100 (Event.device MSG_MOTION_DETECTED)).2 ∧
    (step (step initState 100 (Event.device MSG_MOTION_DETECTED)).1
        (100 + 6000) Event.motionTick).1.current_state
      = SecState.ALARM_ACTIVE ∧
    (step (step initState 100 (Event.device MSG_MOTION_DETECTED)).1
        (100 + 6000) Event.motionTick).1.manually_activated = false ∧
    Effect.uartCmd CMD_SET_BUZZER_ON
      ∈ (step (step initState 100 (Event.device MSG_MOTION_DETECTED)).1
          (100 + 6000) Event.motionTick).2 ∧
    Effect.publish MqttTopic.events "ALARM_TRIGGERED"
      ∈ (step (step initState 100 (Event.device MSG_MOTION_DETECTED)).1
          (100 + 6000) Event.motionTick).2) :=
  ⟨rfl, motion_then_timeout_activates initState 100 rfl⟩

/-- C10: in `ALARM_DISABLED` with the permanent flag clear and no timed
deadline (`alarm_disable_end_time = 0`), the periodic alarm-timeout check
moves the state back to `READY` and publishes `ALARM_REARMED` as soon as
more than 60 s (`alarm_disable_duration`) have passed since the stored
`alarm_disabled_time`; and `CMD_DISABLE_ALARM` never refreshes
`alarm_disabled_time`, so a plain disable-alarm command is re-enabled by
this legacy 60 s path. -/
theorem legacy_timeout_rearms (s : PicoState) (now : Nat)
    (h1 : s.current_state = SecState.ALARM_DISABLED)
    (h2 : s.alarm_disable_permanent = false)
    (h3 : s.alarm_disable_end_time = 0)
    (h4 : alarm_disable_duration < ticks_diff now s.alarm_disabled_time) :
    step s now Event.alarmTick
      = ({ s with current_state := SecState.READY },
         [set_led_color LED_OFF,
          Effect.publish MqttTopic.events "ALARM_REARMED"]) ∧
    ∀ (s' : PicoState) (n' : Nat),
      (step s' n' (Event.cmd "CMD_DISABLE_ALARM")).1.alarm_disabled_time
        = s'.alarm_disabled_time := by
  constructor
  · simp [step, check_alarm_timeout, h1, h2, h3, h4]
  · exact fun s' n' => rfl

/-- Witness for the C10 theorem: disabled at time 0, checked at 60001 ms. -/
theorem legacy_timeout_rearms_witness :
    ({ initState with
        current_state := SecState.ALARM_DISABLED } : PicoState).current_state
      = SecState.ALARM_DISABLED ∧
    ({ initState with
        current_state := SecState.ALARM_DISABLED } :
          PicoState).alarm_disable_permanent = false ∧
    ({ initState with
        current_state := SecState.ALARM_DISABLED } :
          PicoState).alarm_disable_end_time = 0 ∧
    alarm_disable_duration
      < ticks_diff 60001
          ({ initState with
              current_state := SecState.ALARM_DISABLED } :
            PicoState).alarm_disabled_time ∧
    (step { initState with current_state := SecState.ALARM_DISABLED } 60001
        Event.alarmTick
      = ({ initState with current_state := SecState.READY },
         [set_led_color LED_OFF,
          Effect.publish MqttTopic.events "ALARM_REARMED"]) ∧
     ∀ (s' : PicoState) (n' : Nat),
       (step s' n' (Event.cmd "CMD_DISABLE_ALARM")).1.alarm_disabled_time
         = s'.alarm_disabled_time) :=
  ⟨rfl, rfl, rfl, by decide,
    legacy_timeout_rearms _ 60001 rfl rfl rfl (by decide)⟩

theorem feedNormal_append (buf : List Nat) (b : Nat) (hb : b ≠ 10)
    (hbuf : buf ≠ []) : feedNormal buf b = (⟨buf ++ [b], none⟩, []) := by
  have hlen : ¬((buf ++ [b]).length = 1 ∧ 1 ≤ b ∧ b ≤ 28) := by
    intro h
    rcases h with ⟨h1, _⟩
    apply hbuf
    have h0 : buf.length = 0 := by
      simpa [List.length_append] using h1
    simpa [List.length_eq_zero] using h0
  simp only [feedNormal, if_neg hb, if_neg hlen]

theorem drainBytes_accum (payload : List Nat) (rest : List (Bool × Nat))
    (buf : List Nat) (hbuf : buf ≠ [])
    (hp : ∀ x ∈ payload, x ≠ 10) :
    drainBytes ⟨buf, none⟩ (promptly payload ++ rest)
      = drainBytes ⟨buf ++ payload, none⟩ rest := by
  induction payload generalizing buf with
  | nil => simp [promptly]
  | cons x xs ih =>
    have hx : x ≠ 10 := hp x (by simp)
    have hfeed : feedByte ⟨buf, none⟩ true x = (⟨buf ++ [x], none⟩, []) :=
      feedNormal_append buf x hx hbuf
    have hrec := ih (buf ++ [x]) (by simp) (fun y hy => hp y (by simp [hy]))
    simp only [promptly, List.map_cons, List.cons_append, drainBytes, hfeed,
      List.nil_append]
    simpa [promptly, List.append_assoc] using hrec

theorem parseDataFrame_frame (op : Nat) (payload : List Nat)
    (hop : op ≠ 58) :
    parseDataFrame (op :: 58 :: payload)
      = some (DeviceMessage.WithData op (pyStrip payload)) := by
  have hbne : (op != 58) = true := by simp [hop]
  simp [parseDataFrame, List.takeWhile_cons, List.dropWhile_cons, hbne]

/-- C3 counterexample: the stream `[2, 3]` (two single-byte opcodes
back-to-back, the second within the lookahead window, then silence) yields
only `Simple 2`: the consumed lookahead byte 3 is placed in the buffer but
never re-examined as the start of a frame, while re-feeding it as the
first byte of a fresh frame would additionally yield `Simple 3` — so a
subsequent byte of the stream is lost, contradicting the claim. -/
theorem lookahead_byte_is_lost :
    ¬((decodeStream [(true, 2), (true, 3)]).1
        = DeviceMessage.Simple 2 :: (decodeStream [(true, 3)]).1) := by
  decide

/-- C3 (amended): an opcode in `[1, 28]` other than 10 followed within the
window by a non-`':'` byte completes `Simple(opcode)`, and the consumed
byte is kept as the first byte of the next frame's buffer; the kept byte
is decoded correctly when it starts a `':'`-delimited data frame, but it
is never re-examined as a single-byte opcode, so a kept byte that was
itself a single-byte message is never yielded; a lone opcode (other than
10) followed by silence yields exactly one `Simple(opcode)`. -/
theorem lookahead_decoding_behavior :
    (∀ (p : Bool) (op : Nat), 1 ≤ op → op ≤ 28 → op ≠ 10 →
      (decodeStream [(p, op)]).1 = [DeviceMessage.Simple op]) ∧
    (∀ (p : Bool) (op b2 : Nat), 1 ≤ op → op ≤ 28 → op ≠ 10 → b2 ≠ 58 →
      (decodeStream [(p, op), (true, b2)]).1 = [DeviceMessage.Simple op]) ∧
    (∀ (p : Bool) (op b2 : Nat) (payload : List Nat),
      1 ≤ op → op ≤ 28 → op ≠ 10 → b2 ≠ 58 → (∀ x ∈ payload, x ≠ 10) →
      (decodeStream ((p, op) :: (true, b2) :: (true, 58) ::
          (promptly payload ++ [(true, 10)]))).1
        = [DeviceMessage.Simple op,
           DeviceMessage.WithData b2 (pyStrip payload)]) := by
  refine ⟨?_, ?_, ?_⟩
  · intro p op h1 h2 h10
    simp [decodeStream, drainBytes, feedByte, feedNormal, h1, h2, h10]
  · intro p op b2 h1 h2 h10 hb2
    by_cases hb2' : b2 = 10 <;>
      by_cases hp2 : 1 ≤ b2 ∧ b2 ≤ 28 <;>
        simp [decodeStream, drainBytes, feedByte, feedNormal, h1, h2, h10,
          hb2, hb2', hp2]
  · intro p op b2 payload h1 h2 h10 hb2 hpay
    have haccum := drainBytes_accum payload [(true, 10)] [b2, 58]
      (by simp) hpay
    have hfinal : drainBytes ⟨[b2, 58] ++ payload, none⟩ [(true, 10)]
        = (⟨[], none⟩,
           [DeviceMessage.WithData b2 (pyStrip payload)]) := by
      simp [drainBytes, feedByte, feedNormal,
        parseDataFrame_frame b2 payload hb2]
    have hstart : feedByte ⟨[], none⟩ p op = (⟨[op], some op⟩, []) := by
      simp [feedByte, feedNormal, h1, h2, h10]
    have hkeep : feedByte ⟨[op], some op⟩ true b2
        = (⟨[b2], none⟩, [DeviceMessage.Simple op]) := by
      simp [feedByte, hb2]
    have hcolon : feedByte ⟨[b2], none⟩ true 58
        = (⟨[b2, 58], none⟩, []) :=
      feedNormal_append [b2] 58 (by decide) (by simp)
    have hdrain : drainBytes ⟨[], none⟩ ((p, op) :: (true, b2) ::
        (true, 58) :: (promptly payload ++ [(true, 10)]))
        = (⟨[], none⟩,
           [DeviceMessage.Simple op,
            DeviceMessage.WithData b2 (pyStrip payload)]) := by
      simp only [drainBytes, hstart, hkeep, hcolon, haccum, hfinal]
      simp [feedByte, feedNormal, parseDataFrame_frame b2 payload hb2]
    simp [decodeStream, hdrain]

/-- Witness for the amended C3 theorem: opcode 2 alone; 2 then 3; and
2 then the data frame built from opcode 6 and payload byte 65. -/
theorem lookahead_decoding_behavior_witness :
    (decodeStream [(true, 2)]).1 = [DeviceMessage.Simple 2] ∧
    (decodeStream [(true, 2), (true, 3)]).1 = [DeviceMessage.Simple 2] ∧
    (decodeStream ((true, 2) :: (true, 6) :: (true, 58) ::
        (promptly [65] ++ [(true, 10)]))).1
      = [DeviceMessage.Simple 2, DeviceMessage.WithData 6 (pyStrip [65])] :=
  ⟨lookahead_decoding_behavior.1 true 2 (by decide) (by decide) (by decide),
   lookahead_decoding_behavior.2.1 true 2 3 (by decide) (by decide)
     (by decide) (by decide),
   lookahead_decoding_behavior.2.2 true 2 6 [65] (by decide) (by decide)
     (by decide) (by decide) (by decide)⟩

/-- C4 counterexample: the round trip is not exact for every opcode and
every newline-free payload: payload `" "` (byte 32) comes back stripped to
`""` because the parser applies `.strip()`, and opcode 10 (the newline
byte) never round-trips at all, its frame yielding no message. -/
theorem roundTrip_not_exact :
    (decodeStream (promptly (encodeFrame 6 [32]))).1
      ≠ [DeviceMessage.WithData 6 [32]] ∧
    (decodeStream (promptly (encodeFrame 10 []))).1
      ≠ [DeviceMessage.WithData 10 []] := by
  decide

/-- C4 (amended): for every opcode other than 10 (newline) and 58 (colon)
and every payload free of newline bytes and without leading or trailing
whitespace (so the parser's `.strip()` is the identity on it), encoding as
`opcode ':' payload '\n'` and decoding reproduces `WithData(opcode,
payload)`; the empty payload qualifies and yields `WithData(opcode, [])`,
and since the payload may contain 58, only the first `':'` is consumed as
the delimiter. -/
theorem roundTrip_modulo_strip (op : Nat) (payload : List Nat)
    (hop10 : op ≠ 10) (hop58 : op ≠ 58)
    (hpay : ∀ x ∈ payload, x ≠ 10)
    (hstrip : pyStrip payload = payload) :
    (decodeStream (promptly (encodeFrame op payload))).1
      = [DeviceMessage.WithData op payload] := by
  have hsplit : promptly (encodeFrame op payload)
      = (true, op) :: (true, 58) :: (promptly payload ++ [(true, 10)]) := by
    simp [promptly, encodeFrame]
  have haccum := drainBytes_accum payload [(true, 10)] [op, 58]
    (by simp) hpay
  have hfinal : drainBytes ⟨[op, 58] ++ payload, none⟩ [(true, 10)]
      = (⟨[], none⟩, [DeviceMessage.WithData op (pyStrip payload)]) := by
    simp [drainBytes, feedByte, feedNormal,
      parseDataFrame_frame op payload hop58]
  rw [hsplit]
  by_cases hrange : 1 ≤ op ∧ op ≤ 28
  · have hstart : feedByte ⟨[], none⟩ true op = (⟨[op], some op⟩, []) := by
      simp [feedByte, feedNormal, hop10, hrange]
    have hcolon : feedByte ⟨[op], some op⟩ true 58
        = (⟨[op, 58], none⟩, []) := by
      simp [feedByte]
    have hdrain : drainBytes ⟨[], none⟩ ((true, op) :: (true, 58) ::
        (promptly payload ++ [(true, 10)]))
        = (⟨[], none⟩, [DeviceMessage.WithData op (pyStrip payload)]) := by
      simp only [drainBytes, hstart, hcolon, haccum, hfinal]
      simp [feedByte, feedNormal, parseDataFrame_frame op payload hop58]
    simp [decodeStream, hdrain, hstrip]
  · have hstart : feedByte ⟨[], none⟩ true op = (⟨[op], none⟩, []) := by
      simp [feedByte, feedNormal, hop10, hrange]
    have hcolon : feedByte ⟨[op], none⟩ true 58 = (⟨[op, 58], none⟩, []) :=
      feedNormal_append [op] 58 (by decide) (by simp)
    have hdrain : drainBytes ⟨[], none⟩ ((true, op) :: (true, 58) ::
        (promptly payload ++ [(true, 10)]))
        = (⟨[], none⟩, [DeviceMessage.WithData op (pyStrip payload)]) := by
      simp only [drainBytes, hstart, hcolon, haccum, hfinal]
      simp [feedByte, feedNormal, parseDataFrame_frame op payload hop58]
    simp [decodeStream, hdrain, hstrip]

/-- Witness for the amended C4 theorem: opcode 6, payload bytes 65, 58, 66
(the text `A:B` — an interior colon passes through raw). -/
theorem roundTrip_modulo_strip_witness :
    (6 : Nat) ≠ 10 ∧ (6 : Nat) ≠ 58 ∧
    (∀ x ∈ ([65, 58, 66] : List Nat), x ≠ 10) ∧
    pyStrip [65, 58, 66] = [65, 58, 66] ∧
    (decodeStream (promptly (encodeFrame 6 [65, 58, 66]))).1
      = [DeviceMessage.WithData 6 [65, 58, 66]] :=
  ⟨by decide, by decide, by decide, by decide,
   roundTrip_modulo_strip 6 [65, 58, 66] (by decide) (by decide)
     (by decide) (by decide)⟩

/-- Polling `update_led_blink` from the main loop, sampled at the moments
the 200 ms blink interval has elapsed (`k` effective polls). -/
def runBlinkTicks (s : PicoState) : Nat → PicoState × List Effect
  | 0 => (s, [])
  | k + 1 =>
    let r := update_led_blink s (s.led_blink_last_time + led_blink_interval)
    let r' := runBlinkTicks r.1 k
    (r'.1, r.2 ++ r'.2)

theorem runBlinkTicks_completes (k : Nat) (s : PicoState)
    (ha : s.led_blink_active = true) (hk : 1 ≤ k)
    (hc : s.led_blink_count + k = s.led_blink_max_count) :
    (runBlinkTicks s k).1.led_blink_active = false ∧
    (runBlinkTicks s k).1.led_blink_is_on = false ∧
    ∃ es, (runBlinkTicks s k).2 = es ++ [set_led_color LED_OFF] := by
  induction k generalizing s with
  | zero => omega
  | succ k ih =>
    have hact : ¬(s.led_blink_active = false) := by simp [ha]
    have hdiff : led_blink_interval
        ≤ ticks_diff (s.led_blink_last_time + led_blink_interval)
            s.led_blink_last_time := by
      simp [ticks_diff]
    cases k with
    | zero =>
      have hdone : s.led_blink_max_count ≤ s.led_blink_count + 1 := by
        omega
      simp [runBlinkTicks, update_led_blink, hact, hdiff, hdone]
    | succ k' =>
      have hnotdone : ¬(s.led_blink_max_count ≤ s.led_blink_count + 1) := by
        omega
      cases his : s.led_blink_is_on with
      | false =>
        have hnext := ih
          ({ s with
              led_blink_count := s.led_blink_count + 1
              led_blink_last_time :=
                s.led_blink_last_time + led_blink_interval
              led_blink_is_on := true })
          ha (by omega) (by simp; omega)
        rcases hnext with ⟨hn1, hn2, es', hn3⟩
        refine ⟨?_, ?_, ?_⟩
        · simpa [runBlinkTicks, update_led_blink, hact, hdiff, hnotdone,
            his] using hn1
        · simpa [runBlinkTicks, update_led_blink, hact, hdiff, hnotdone,
            his] using hn2
        · refine ⟨set_led_color s.led_blink_color :: es', ?_⟩
          simpa [runBlinkTicks, update_led_blink, hact, hdiff, hnotdone,
            his] using hn3
      | true =>
        have hnext := ih
          ({ s with
              led_blink_count := s.led_blink_count + 1
              led_blink_last_time :=
                s.led_blink_last_time + led_blink_interval
              led_blink_is_on := false })
          ha (by omega) (by simp; omega)
        rcases hnext with ⟨hn1, hn2, es', hn3⟩
        refine ⟨?_, ?_, ?_⟩
        · simpa [runBlinkTicks, update_led_blink, hact, hdiff, hnotdone,
            his] using hn1
        · simpa [runBlinkTicks, update_led_blink, hact, hdiff, hnotdone,
            his] using hn2
        · refine ⟨set_led_color LED_OFF :: es', ?_⟩
          simpa [runBlinkTicks, update_led_blink, hact, hdiff, hnotdone,
            his] using hn3

/-- C7 counterexample: after `AUTH_FAILED` starts the red blink sequence
(driver in flight), a motion event from `Ready` makes a direct
`set_led_color` call (its `CMD_SET_LED_RGB` command is among the emitted
effects), yet `led_blink_active` remains true: the call does not cancel
the in-flight sequence nor return the driver to `Idle`, contradicting the
claim. -/
theorem setLedColor_does_not_cancel_blink :
    (step initState 0 (Event.auth "AUTH_FAILED")).1.led_blink_active
      = true ∧
    set_led_color LED_ORANGE
      ∈ (step (step initState 0 (Event.auth "AUTH_FAILED")).1 0
          (Event.device MSG_MOTION_DETECTED)).2 ∧
    (step (step initState 0 (Event.auth "AUTH_FAILED")).1 0
        (Event.device MSG_MOTION_DETECTED)).1.led_blink_active = true := by
  decide

/-- C7 (amended): a blink sequence started with `start_led_blink(color, n)`
(`n ≥ 1`) runs to completion: after its `2 n` on/off phases the driver is
back in `Idle` (`led_blink_active` and `led_blink_is_on` false) and the
last emitted LED command forces the LED off; but a direct `set_led_color`
call made outside the driver (here via `handle_motion_detected`) does not
cancel an in-flight sequence — `led_blink_active` is left unchanged. -/
theorem blink_completes_but_is_not_cancelled (s0 : PicoState)
    (color : Color) (n now : Nat) (hn : 1 ≤ n) :
    ((runBlinkTicks (start_led_blink s0 now color n).1
        (2 * n)).1.led_blink_active = false ∧
     (runBlinkTicks (start_led_blink s0 now color n).1
        (2 * n)).1.led_blink_is_on = false ∧
     ∃ es, (runBlinkTicks (start_led_blink s0 now color n).1 (2 * n)).2
        = es ++ [set_led_color LED_OFF]) ∧
    ∀ (s : PicoState) (t : Nat),
      (handle_motion_detected s t).1.led_blink_active
        = s.led_blink_active := by
  constructor
  · apply runBlinkTicks_completes
    · rfl
    · omega
    · simp [start_led_blink]
      omega
  · intro s t
    unfold handle_motion_detected
    split_ifs <;> rfl

/-- Witness for the amended C7 theorem: a 1-blink red sequence from the
initial state. -/
theorem blink_completes_but_is_not_cancelled_witness :
    (1 : Nat) ≤ 1 ∧
    (((runBlinkTicks (start_led_blink initState 0 LED_RED 1).1
        (2 * 1)).1.led_blink_active = false ∧
     (runBlinkTicks (start_led_blink initState 0 LED_RED 1).1
        (2 * 1)).1.led_blink_is_on = false ∧
     ∃ es, (runBlinkTicks (start_led_blink initState 0 LED_RED 1).1
          (2 * 1)).2 = es ++ [set_led_color LED_OFF]) ∧
    ∀ (s : PicoState) (t : Nat),
      (handle_motion_detected s t).1.led_blink_active
        = s.led_blink_active) :=
  ⟨by decide,
   blink_completes_but_is_not_cancelled initState LED_RED 1 0 (by decide)⟩

end SecSys
